import Mathlib

/-!
Verification of the gesture-recognition-api repository against its
natural-language specification.

The development shallowly embeds the Python sources:
  * `detect_thumbs_up`         — facepp_gesture_volume_control.py, lines 104-142
    (facepp_gesture_volume_control_v2.py, lines 89-120, is line-for-line
    identical in logic, so the same definition embeds both);
  * `app_detect_thumbs_up`     — gesture_volume_app.py, lines 467-481;
  * `loop_tick` / `loop_tick_outcome`
                               — the loop body of run_continuous_gesture_detection,
                                 facepp_gesture_volume_control.py, lines 190-204;
  * `detection_tick`           — GestureVolumeApp.detection_loop,
                                 gesture_volume_app.py, lines 379-400;
  * `increase_volume`          — gesture_volume_app.py, lines 483-502;
  * `cooldown_gate`            — the cooldown guard, lines 200-204 of
                                 facepp_gesture_volume_control.py.

Python values flowing through these functions are modelled by the `Json`
type; Python exceptions (AttributeError on `.get` of a non-dict,
TypeError on ordering a non-number against 50 or iterating a
non-iterable) are modelled with `Except String`.  Times and JSON numbers
are rationals.  `spec_normalize` is the one definition written from the
specification's words (§4.2) rather than from the source; it exists to
compare the spec's normalization algorithm with the code.
-/

/-- A JSON-like Python value (the payload shapes the normalizer receives). -/
inductive Json : Type where
  | null : Json
  | bool : Bool → Json
  | num : ℚ → Json
  | str : String → Json
  | arr : List Json → Json
  | obj : List (String × Json) → Json

/-- Python truthiness: `None`, `False`, `0`, `""`, `[]`, `{}` are falsy. -/
def truthy : Json → Bool
  | .null => false
  | .bool b => b
  | .num q => q != 0
  | .str s => s != ""
  | .arr l => !l.isEmpty
  | .obj fs => !fs.isEmpty

/-- `x.get(k)` on a dict: first binding for the key, if any. -/
def dictGet (k : String) (fs : List (String × Json)) : Option Json :=
  List.lookup k fs

/-- Python `v or d` where `v` is a `dict.get` result (`None` when the key is
absent): the value if present and truthy, otherwise the default. -/
def pyOrDefault (v : Option Json) (d : Json) : Json :=
  match v with
  | some x => if truthy x then x else d
  | none => d

/-- Python `for x in j`: lists yield their elements, strings their
characters, dicts their keys; other values raise TypeError. -/
def iterElems : Json → Except String (List Json)
  | .arr l => .ok l
  | .str s => .ok (s.data.map fun c => Json.str (String.mk [c]))
  | .obj fs => .ok (fs.map fun kv => Json.str kv.1)
  | _ => .error "TypeError"

/-- The probe order for the hands collection (line 115). -/
def probeKeys : List String := ["hands", "hand_gestures", "result"]

/-- `payload.get(k₁) or payload.get(k₂) or ... or []`: the first truthy
value among the probed keys, defaulting to the empty list. -/
def firstTruthy (fs : List (String × Json)) : List String → Json
  | [] => Json.arr []
  | k :: ks =>
      match dictGet k fs with
      | some v => if truthy v then v else firstTruthy fs ks
      | none => firstTruthy fs ks

/-- Lines 115-118: probe `hands`/`hand_gestures`/`result`; if the value
found is itself a dict, take its `hands` field (default `[]`). -/
def locateHands (fs : List (String × Json)) : Json :=
  match firstTruthy fs probeKeys with
  | .obj ifs => (dictGet "hands" ifs).getD (Json.arr [])
  | v => v

/-- Line 125: `hand.get("gesture") or hand.get("gesture_type") or
hand.get("label")` — first truthy of the three, else the value of the
last expression (None when absent). -/
def chain3 (fs : List (String × Json)) : Json :=
  let g := (dictGet "gesture" fs).getD Json.null
  let gt := (dictGet "gesture_type" fs).getD Json.null
  let lb := (dictGet "label" fs).getD Json.null
  if truthy g then g else if truthy gt then gt else lb

/-- Line 138: `gesture.lower().replace("_", "").replace(" ", "")`. -/
def normalizeLabel (s : String) : String :=
  String.mk ((s.data.map Char.toLower).filter fun c => c != '_' && c != ' ')

/-- Lines 124-140, body of the per-hand loop.  `hand.get` on a non-dict
raises AttributeError; comparing a non-numeric score with 50 raises
TypeError (Python booleans order as 0/1, hence never exceed 50). -/
def checkHand (hand : Json) : Except String Bool :=
  match hand with
  | .obj fs =>
      match chain3 fs with
      | .obj gfs =>
          match (dictGet "thumb_up" gfs).getD (Json.num 0) with
          | .num q => .ok (decide (50 < q))
          | .bool _ => .ok false
          | _ => .error "TypeError"
      | .str s => .ok (normalizeLabel s == "thumbup" || normalizeLabel s == "thumbsup")
      | _ => .ok false
  | _ => .error "AttributeError"

/-- The `for hand in hands` loop (lines 124-140): first positive hand
returns True immediately, otherwise continue; fall through to False. -/
def checkHands : List Json → Except String Bool
  | [] => .ok false
  | h :: rest =>
      match checkHand h with
      | .ok true => .ok true
      | .ok false => checkHands rest
      | .error e => .error e

/-- `detect_thumbs_up` of facepp_gesture_volume_control.py (lines 104-142);
facepp_gesture_volume_control_v2.py's copy (lines 89-120) differs only in
print statements. -/
def detect_thumbs_up (payload : Json) : Except String Bool :=
  if truthy payload then
    match payload with
    | .obj fs =>
        let hands := locateHands fs
        if truthy hands then
          match iterElems hands with
          | .ok items => checkHands items
          | .error e => .error e
        else .ok false
    | _ => .error "AttributeError"
  else .ok false

/-- gesture_volume_app.py lines 472-474: `payload.get("hands") or []`,
then the dict probe. -/
def appLocateHands (fs : List (String × Json)) : Json :=
  match pyOrDefault (dictGet "hands" fs) (Json.arr []) with
  | .obj ifs => (dictGet "hands" ifs).getD (Json.arr [])
  | v => v

/-- gesture_volume_app.py lines 477-480: `hand.get("gesture") or {}`,
then only the dict-of-scores branch (no string-label branch). -/
def appCheckHand (hand : Json) : Except String Bool :=
  match hand with
  | .obj fs =>
      match pyOrDefault (dictGet "gesture" fs) (Json.obj []) with
      | .obj gfs =>
          match (dictGet "thumb_up" gfs).getD (Json.num 0) with
          | .num q => .ok (decide (50 < q))
          | .bool _ => .ok false
          | _ => .error "TypeError"
      | _ => .ok false
  | _ => .error "AttributeError"

/-- The hand loop of gesture_volume_app.py (lines 476-480). -/
def appCheckHands : List Json → Except String Bool
  | [] => .ok false
  | h :: rest =>
      match appCheckHand h with
      | .ok true => .ok true
      | .ok false => appCheckHands rest
      | .error e => .error e

/-- `GestureVolumeApp.detect_thumbs_up` (gesture_volume_app.py,
lines 467-481).  No `if not hands` guard before the loop: iterating a
truthy non-iterable raises. -/
def app_detect_thumbs_up (payload : Json) : Except String Bool :=
  if truthy payload then
    match payload with
    | .obj fs =>
        match iterElems (appLocateHands fs) with
        | .ok items => appCheckHands items
        | .error e => .error e
    | _ => .error "AttributeError"
  else .ok false

/-! ## The control loop -/

/-- `API_CALL_INTERVAL = 2.0` (facepp_gesture_volume_control.py line 31,
gesture_volume_app.py line 25). -/
def API_CALL_INTERVAL : ℚ := 2

/-- `COOLDOWN_PERIOD = 1.0` (facepp_gesture_volume_control.py line 34,
gesture_volume_app.py line 26). -/
def COOLDOWN_PERIOD : ℚ := 1

/-- The loop's mutable timestamps (`last_api_call`, `last_trigger_time`),
initialised to 0 at lines 173-174 of facepp_gesture_volume_control.py. -/
structure LoopState : Type where
  lastApiCall : ℚ
  lastTrigger : ℚ
deriving DecidableEq

/-- What one loop iteration did: the updated state, whether a
classification call was attempted, and whether the volume action fired. -/
structure TickOut : Type where
  state : LoopState
  called : Bool
  fired : Bool
deriving DecidableEq

/-- One iteration of the timed part of `run_continuous_gesture_detection`
(facepp_gesture_volume_control.py lines 190-204) at current time `t`,
with the classification result abstracted as the boolean `det` (the value
`detect_thumbs_up(payload)` would return for the tick's payload). -/
def loop_tick (s : LoopState) (t : ℚ) (det : Bool) : TickOut :=
  if API_CALL_INTERVAL ≤ t - s.lastApiCall then
    if det then
      if COOLDOWN_PERIOD ≤ t - s.lastTrigger then
        ⟨⟨t, t⟩, true, true⟩
      else ⟨⟨t, s.lastTrigger⟩, true, false⟩
    else ⟨⟨t, s.lastTrigger⟩, true, false⟩
  else ⟨s, false, false⟩

/-- The times at which the loop attempts classification calls, over a
sequence of ticks given as (time, detection) pairs. -/
def callTimes (s : LoopState) : List (ℚ × Bool) → List ℚ
  | [] => []
  | (t, det) :: rest =>
      let o := loop_tick s t det
      (if o.called then [t] else []) ++ callTimes o.state rest

/-- The times at which the loop fires the volume action. -/
def loopFireTimes (s : LoopState) : List (ℚ × Bool) → List ℚ
  | [] => []
  | (t, det) :: rest =>
      let o := loop_tick s t det
      (if o.fired then [t] else []) ++ loopFireTimes o.state rest

/-- The cooldown gate alone (facepp_gesture_volume_control.py lines
200-204): given a positive detection at time `t` and the stored
`last_trigger_time`, fire iff the cooldown has elapsed, updating the
timestamp only on firing. -/
def cooldown_gate (lastTrigger t : ℚ) : ℚ × Bool :=
  if COOLDOWN_PERIOD ≤ t - lastTrigger then (t, true) else (lastTrigger, false)

/-- Run the cooldown gate over the times of successive positive
detections, returning for each whether the action fired. -/
def cooldown_run (lastTrigger : ℚ) : List ℚ → List Bool
  | [] => []
  | t :: ts =>
      let r := cooldown_gate lastTrigger t
      r.2 :: cooldown_run r.1 ts

/-- The `ClassificationOutcome` of the spec (§3): the three ways a
classification call can end at the `post_to_facepp_gesture` boundary. -/
inductive ClassificationOutcome : Type where
  | success : Json → ClassificationOutcome
  | serviceError : String → ClassificationOutcome
  | transportError : String → ClassificationOutcome

/-- What `post_to_facepp_gesture` (lines 68-101) hands to the loop: the
payload dict on success, and `None` on a non-200 status / error field
(service error) or a raised request exception (transport error). -/
def post_result : ClassificationOutcome → Json
  | .success p => p
  | .serviceError _ => Json.null
  | .transportError _ => Json.null

/-- The loop iteration of facepp_gesture_volume_control.py lines 190-204
composed with the classification boundary: `last_api_call` is set as soon
as the gate passes, then the outcome's payload is normalized. -/
def loop_tick_outcome (s : LoopState) (t : ℚ) (o : ClassificationOutcome) :
    Except String TickOut :=
  if API_CALL_INTERVAL ≤ t - s.lastApiCall then
    match detect_thumbs_up (post_result o) with
    | .ok det =>
        if det then
          if COOLDOWN_PERIOD ≤ t - s.lastTrigger then .ok ⟨⟨t, t⟩, true, true⟩
          else .ok ⟨⟨t, s.lastTrigger⟩, true, false⟩
        else .ok ⟨⟨t, s.lastTrigger⟩, true, false⟩
    | .error e => .error e
  else .ok ⟨s, false, false⟩

/-! ## The app's detection loop (gesture_volume_app.py) -/

/-- The app's mutable session state: the two timestamps plus the
`stats` counters `gestures_detected` and `volume_changes`. -/
structure AppState : Type where
  lastApiCall : ℚ
  lastTrigger : ℚ
  gesturesDetected : ℕ
  volumeChanges : ℕ
deriving DecidableEq

/-- Result of one `detection_loop` iteration. -/
structure AppTickOut : Type where
  state : AppState
  called : Bool
  fired : Bool
deriving DecidableEq

/-- The OS volume command of `increase_volume`; `ok` says whether the
platform-specific subprocess succeeds. -/
def run_volume_command (ok : Bool) : Except String Unit :=
  if ok then .ok () else .error "ActionError"

/-- `GestureVolumeApp.increase_volume` (gesture_volume_app.py lines
483-502): the whole body is wrapped in `try: ... except: pass`, so any
failure of the underlying command is swallowed and nothing is logged. -/
def increase_volume (ok : Bool) : Except String Unit :=
  match run_volume_command ok with
  | .ok _ => .ok ()
  | .error _ => .ok ()

/-- One iteration of `GestureVolumeApp.detection_loop` (gesture_volume_app.py
lines 379-400) at time `t`: `det` abstracts the normalizer's boolean,
`aok` says whether the volume command would succeed this tick.
`gestures_detected` is incremented on every positive detection (line 393,
before the cooldown check); `volume_changes` and `last_trigger_time` are
updated only when the action fires (lines 396-398).  An exception escaping
`increase_volume` would kill the daemon thread, hence the `Except`
codomain; `increase_volume` never raises. -/
def detection_tick (s : AppState) (t : ℚ) (det aok : Bool) :
    Except String AppTickOut :=
  if API_CALL_INTERVAL ≤ t - s.lastApiCall then
    if det then
      if COOLDOWN_PERIOD ≤ t - s.lastTrigger then
        match increase_volume aok with
        | .ok _ => .ok ⟨⟨t, t, s.gesturesDetected + 1, s.volumeChanges + 1⟩, true, true⟩
        | .error e => .error e
      else .ok ⟨⟨t, s.lastTrigger, s.gesturesDetected + 1, s.volumeChanges⟩, true, false⟩
    else .ok ⟨⟨t, s.lastTrigger, s.gesturesDetected, s.volumeChanges⟩, true, false⟩
  else .ok ⟨s, false, false⟩

/-- The times at which the app's loop fires the volume action, over ticks
given as (time, detection, action-success) triples; a raised exception
would end the thread, producing no further firings. -/
def fireTimes (s : AppState) : List (ℚ × Bool × Bool) → List ℚ
  | [] => []
  | (t, det, aok) :: rest =>
      match detection_tick s t det aok with
      | .ok o => (if o.fired then [t] else []) ++ fireTimes o.state rest
      | .error _ => []

/-! ## The specification's normalizer (§4.2), for comparison -/

/-- The spec's `GestureSignal`: present/absent plus a confidence. -/
structure GestureSignal : Type where
  present : Bool
  confidence : ℚ
deriving DecidableEq

/-- Spec §4.2 step 1, literally: probe keys `hands`, `hand_gestures`,
`result` in order, the first *present* key winning. -/
def specLocate (fs : List (String × Json)) : Option Json :=
  (dictGet "hands" fs) <|> (dictGet "hand_gestures" fs) <|> (dictGet "result" fs)

/-- Spec §4.2 step 1: the located collection of hand records; a document
found by the probe is dereferenced at its `hands` field. -/
def specHandsList (fs : List (String × Json)) : Option (List Json) :=
  match specLocate fs with
  | some (.arr l) => some l
  | some (.obj ifs) =>
      match dictGet "hands" ifs with
      | some (.arr l) => some l
      | _ => none
  | _ => none

/-- Spec §4.2 step 2: the gesture descriptor, probing keys `gesture`,
`gesture_type`, `label` in order. -/
def specDescriptor (hfs : List (String × Json)) : Option Json :=
  (dictGet "gesture" hfs) <|> (dictGet "gesture_type" hfs) <|> (dictGet "label" hfs)

/-- Spec §4.2 steps 3-4: the positive signal a single hand record yields,
if any. -/
def specHandSignal (h : Json) : Option GestureSignal :=
  match h with
  | .obj hfs =>
      match specDescriptor hfs with
      | some (.obj gfs) =>
          let q : ℚ := match dictGet "thumb_up" gfs with
            | some (.num q) => q
            | _ => 0
          if 50 < q then some ⟨true, q⟩ else none
      | some (.str s) =>
          if normalizeLabel s = "thumbup" ∨ normalizeLabel s = "thumbsup" then
            some ⟨true, 100⟩
          else none
      | _ => none
  | _ => none

/-- The normalizer exactly as §4.2 words it (first match wins, empty or
missing collection means absent, short-circuit OR across hands). -/
def spec_normalize (doc : Json) : GestureSignal :=
  match doc with
  | .obj fs =>
      match specHandsList fs with
      | some l => (l.findSome? specHandSignal).getD ⟨false, 0⟩
      | none => ⟨false, 0⟩
  | _ => ⟨false, 0⟩

/-! ## Well-shaped inputs, on which the normalizers are total -/

/-- A gesture descriptor whose examination cannot raise: if it is a dict,
its `thumb_up` entry (when present) must be a number or a boolean so the
comparison with 50 is defined; every non-dict descriptor is merely
skipped or string-matched and never raises. -/
def safeDescriptor (g : Json) : Bool :=
  match g with
  | .obj gfs =>
      match (dictGet "thumb_up" gfs).getD (Json.num 0) with
      | .num _ => true
      | .bool _ => true
      | _ => false
  | _ => true

/-- A hand record `hand.get(...)` can be called on: a dict with a safe
descriptor (per `detect_thumbs_up`'s probe). -/
def safeHand (h : Json) : Bool :=
  match h with
  | .obj fs => safeDescriptor (chain3 fs)
  | _ => false

/-- A located hands value the loop of `detect_thumbs_up` survives: falsy
(returned False before the loop) or a list of safe hand records. -/
def safeHands (hands : Json) : Bool :=
  if truthy hands then
    match hands with
    | .arr l => l.all safeHand
    | _ => false
  else true

/-- Payloads on which `detect_thumbs_up` cannot raise: falsy, or a dict
whose located hands collection is safe. -/
def safePayload (p : Json) : Bool :=
  if truthy p then
    match p with
    | .obj fs => safeHands (locateHands fs)
    | _ => false
  else true

/-- A hand record the app's loop survives (its descriptor probe is
`hand.get("gesture") or {}`). -/
def appSafeHand (h : Json) : Bool :=
  match h with
  | .obj fs => safeDescriptor (pyOrDefault (dictGet "gesture" fs) (Json.obj []))
  | _ => false

/-- A located hands value the app's unguarded `for hand in hands` loop
survives: a list of safe hands, or an empty string/dict (whose iteration
yields nothing); numbers, booleans and `None` are not iterable, and
nonempty strings/dicts yield string elements that raise at `hand.get`. -/
def appSafeHands : Json → Bool
  | .arr l => l.all appSafeHand
  | .str s => s == ""
  | .obj ifs => ifs.isEmpty
  | _ => false

/-- Payloads on which the app's `detect_thumbs_up` cannot raise. -/
def appSafePayload (p : Json) : Bool :=
  if truthy p then
    match p with
    | .obj fs => appSafeHands (appLocateHands fs)
    | _ => false
  else true

/-! ## C1: totality of the response normalizer -/

lemma checkHand_safe (h : Json) (hs : safeHand h = true) :
    ∃ b, checkHand h = .ok b := by
  cases h with
  | obj fs =>
      simp only [safeHand] at hs
      cases hg : chain3 fs with
      | obj gfs =>
          rw [hg] at hs
          simp only [safeDescriptor] at hs
          cases hsc : (dictGet "thumb_up" gfs).getD (Json.num 0) with
          | num q => exact ⟨decide (50 < q), by simp [checkHand, hg, hsc]⟩
          | bool b => exact ⟨false, by simp [checkHand, hg, hsc]⟩
          | null => rw [hsc] at hs; cases hs
          | str s => rw [hsc] at hs; cases hs
          | arr l => rw [hsc] at hs; cases hs
          | obj o => rw [hsc] at hs; cases hs
      | str s =>
          exact ⟨normalizeLabel s == "thumbup" || normalizeLabel s == "thumbsup",
            by simp [checkHand, hg]⟩
      | null => exact ⟨false, by simp [checkHand, hg]⟩
      | bool b => exact ⟨false, by simp [checkHand, hg]⟩
      | num q => exact ⟨false, by simp [checkHand, hg]⟩
      | arr l => exact ⟨false, by simp [checkHand, hg]⟩
  | null => cases hs
  | bool b => cases hs
  | num q => cases hs
  | str s => cases hs
  | arr l => cases hs

lemma checkHands_safe (l : List Json) (hs : ∀ h ∈ l, safeHand h = true) :
    ∃ b, checkHands l = .ok b := by
  induction l with
  | nil => exact ⟨false, rfl⟩
  | cons h rest ih =>
      obtain ⟨b, hb⟩ := checkHand_safe h (hs h (by simp))
      obtain ⟨b', hb'⟩ := ih (fun x hx => hs x (by simp [hx]))
      cases b with
      | true => exact ⟨true, by simp [checkHands, hb]⟩
      | false => exact ⟨b', by simp [checkHands, hb, hb']⟩

lemma detect_thumbs_up_safe (p : Json) (hp : safePayload p = true) :
    ∃ b, detect_thumbs_up p = .ok b := by
  by_cases htr : truthy p = true
  · cases p with
    | obj fs =>
        simp only [safePayload, htr, if_true, eq_self_iff_true] at hp
        by_cases hh : truthy (locateHands fs) = true
        · simp only [safeHands, hh, if_true, eq_self_iff_true] at hp
          cases hl : locateHands fs with
          | arr l =>
              rw [hl] at hp
              obtain ⟨b, hb⟩ := checkHands_safe l (by simpa [List.all_eq_true] using hp)
              exact ⟨b, by simp [detect_thumbs_up, htr, hl, hl ▸ hh, iterElems, hb]⟩
          | null => rw [hl] at hp; cases hp
          | bool b => rw [hl] at hp; cases hp
          | num q => rw [hl] at hp; cases hp
          | str s => rw [hl] at hp; cases hp
          | obj o => rw [hl] at hp; cases hp
        · simp only [Bool.not_eq_true] at hh
          exact ⟨false, by simp [detect_thumbs_up, htr, hh]⟩
    | null => simp [safePayload, htr] at hp
    | bool b => simp [safePayload, htr] at hp
    | num q => simp [safePayload, htr] at hp
    | str s => simp [safePayload, htr] at hp
    | arr l => simp [safePayload, htr] at hp
  · simp only [Bool.not_eq_true] at htr
    exact ⟨false, by simp [detect_thumbs_up, htr]⟩

lemma appCheckHand_safe (h : Json) (hs : appSafeHand h = true) :
    ∃ b, appCheckHand h = .ok b := by
  cases h with
  | obj fs =>
      simp only [appSafeHand] at hs
      cases hg : pyOrDefault (dictGet "gesture" fs) (Json.obj []) with
      | obj gfs =>
          rw [hg] at hs
          simp only [safeDescriptor] at hs
          cases hsc : (dictGet "thumb_up" gfs).getD (Json.num 0) with
          | num q => exact ⟨decide (50 < q), by simp [appCheckHand, hg, hsc]⟩
          | bool b => exact ⟨false, by simp [appCheckHand, hg, hsc]⟩
          | null => rw [hsc] at hs; cases hs
          | str s => rw [hsc] at hs; cases hs
          | arr l => rw [hsc] at hs; cases hs
          | obj o => rw [hsc] at hs; cases hs
      | str s => exact ⟨false, by simp [appCheckHand, hg]⟩
      | null => exact ⟨false, by simp [appCheckHand, hg]⟩
      | bool b => exact ⟨false, by simp [appCheckHand, hg]⟩
      | num q => exact ⟨false, by simp [appCheckHand, hg]⟩
      | arr l => exact ⟨false, by simp [appCheckHand, hg]⟩
  | null => cases hs
  | bool b => cases hs
  | num q => cases hs
  | str s => cases hs
  | arr l => cases hs

lemma appCheckHands_safe (l : List Json) (hs : ∀ h ∈ l, appSafeHand h = true) :
    ∃ b, appCheckHands l = .ok b := by
  induction l with
  | nil => exact ⟨false, rfl⟩
  | cons h rest ih =>
      obtain ⟨b, hb⟩ := appCheckHand_safe h (hs h (by simp))
      obtain ⟨b', hb'⟩ := ih (fun x hx => hs x (by simp [hx]))
      cases b with
      | true => exact ⟨true, by simp [appCheckHands, hb]⟩
      | false => exact ⟨b', by simp [appCheckHands, hb, hb']⟩

lemma app_detect_thumbs_up_safe (p : Json) (hp : appSafePayload p = true) :
    ∃ b, app_detect_thumbs_up p = .ok b := by
  by_cases htr : truthy p = true
  · cases p with
    | obj fs =>
        simp only [appSafePayload, htr, if_true, eq_self_iff_true] at hp
        cases hl : appLocateHands fs with
        | arr l =>
            rw [hl] at hp
            simp only [appSafeHands, List.all_eq_true] at hp
            obtain ⟨b, hb⟩ := appCheckHands_safe l hp
            exact ⟨b, by simp [app_detect_thumbs_up, htr, hl, iterElems, hb]⟩
        | str s =>
            rw [hl] at hp
            simp only [appSafeHands, beq_iff_eq] at hp
            subst hp
            exact ⟨false, by simp [app_detect_thumbs_up, htr, hl, iterElems, appCheckHands]⟩
        | obj o =>
            rw [hl] at hp
            simp only [appSafeHands, List.isEmpty_iff] at hp
            subst hp
            exact ⟨false, by simp [app_detect_thumbs_up, htr, hl, iterElems, appCheckHands]⟩
        | null => rw [hl] at hp; cases hp
        | bool b => rw [hl] at hp; cases hp
        | num q => rw [hl] at hp; cases hp
    | null => simp [appSafePayload, htr] at hp
    | bool b => simp [appSafePayload, htr] at hp
    | num q => simp [appSafePayload, htr] at hp
    | str s => simp [appSafePayload, htr] at hp
    | arr l => simp [appSafePayload, htr] at hp
  · simp only [Bool.not_eq_true] at htr
    exact ⟨false, by simp [app_detect_thumbs_up, htr]⟩

/-- C1 (amended): both normalizers terminate with a boolean on every
well-shaped input — any falsy payload, or any dict payload whose located
hands value is falsy (for the app: iterable with nothing to visit) or a
list of dict hand records whose `thumb_up` scores, when the probed
descriptor is a dict, are numeric, boolean or absent.  (As stated, the
claim's universal totality is false: the code raises on e.g. a non-dict
payload, see `c1_not_total_counterexample`.) -/
theorem c1_normalizer_total_on_wellformed (p : Json) :
    (safePayload p = true → ∃ b, detect_thumbs_up p = .ok b) ∧
    (appSafePayload p = true → ∃ b, app_detect_thumbs_up p = .ok b) :=
  ⟨detect_thumbs_up_safe p, app_detect_thumbs_up_safe p⟩

/-- C1 witness: the well-formedness side conditions hold and the theorem
applies at a concrete document. -/
theorem c1_normalizer_total_on_wellformed_witness :
    safePayload (Json.obj [("hands", Json.arr [Json.obj [("gesture", Json.str "Thumb_Up")]])]) = true ∧
    appSafePayload (Json.obj [("hands", Json.arr [Json.obj [("gesture", Json.str "Thumb_Up")]])]) = true ∧
    (∃ b, detect_thumbs_up (Json.obj [("hands", Json.arr [Json.obj [("gesture", Json.str "Thumb_Up")]])]) = .ok b) ∧
    (∃ b, app_detect_thumbs_up (Json.obj [("hands", Json.arr [Json.obj [("gesture", Json.str "Thumb_Up")]])]) = .ok b) :=
  ⟨rfl, rfl,
    (c1_normalizer_total_on_wellformed _).1 rfl,
    (c1_normalizer_total_on_wellformed _).2 rfl⟩

/-- C1 counterexample: the normalizers are not total.  A truthy non-dict
payload raises AttributeError at `payload.get` in both versions; a dict
whose hands value is a nonempty string raises AttributeError at
`hand.get` on its characters; a non-numeric `thumb_up` score raises
TypeError at the comparison with 50. -/
theorem c1_not_total_counterexample :
    detect_thumbs_up (Json.arr [Json.num 1]) = .error "AttributeError" ∧
    app_detect_thumbs_up (Json.arr [Json.num 1]) = .error "AttributeError" ∧
    detect_thumbs_up (Json.obj [("hands", Json.str "up")]) = .error "AttributeError" ∧
    detect_thumbs_up (Json.obj [("hands", Json.arr [Json.obj [("gesture",
      Json.obj [("thumb_up", Json.str "high")])]])]) = .error "TypeError" :=
  ⟨rfl, rfl, rfl, rfl⟩

/-! ## C2: minimum spacing between classification calls -/

lemma API_CALL_INTERVAL_nonneg : (0 : ℚ) ≤ API_CALL_INTERVAL := by
  norm_num [API_CALL_INTERVAL]

lemma loop_tick_not_called (s : LoopState) (t : ℚ) (det : Bool)
    (h : ¬ API_CALL_INTERVAL ≤ t - s.lastApiCall) :
    loop_tick s t det = ⟨s, false, false⟩ := by
  simp [loop_tick, h]

lemma loop_tick_called_state (s : LoopState) (t : ℚ) (det : Bool)
    (h : API_CALL_INTERVAL ≤ t - s.lastApiCall) :
    (loop_tick s t det).state.lastApiCall = t ∧ (loop_tick s t det).called = true := by
  cases det <;> simp only [loop_tick, if_pos h] <;> split_ifs <;> simp

lemma loop_tick_gate (s : LoopState) (t : ℚ) (det : Bool)
    (h : (loop_tick s t det).called = true) :
    API_CALL_INTERVAL ≤ t - s.lastApiCall := by
  by_contra hc
  rw [loop_tick_not_called s t det hc] at h
  cases h

lemma callTimes_lb (ticks : List (ℚ × Bool)) :
    ∀ s : LoopState, ∀ c ∈ callTimes s ticks, s.lastApiCall + API_CALL_INTERVAL ≤ c := by
  induction ticks with
  | nil => intro s c hc; cases hc
  | cons td rest ih =>
      intro s c hc
      obtain ⟨t, det⟩ := td
      simp only [callTimes] at hc
      by_cases hg : API_CALL_INTERVAL ≤ t - s.lastApiCall
      · obtain ⟨hst, hcalled⟩ := loop_tick_called_state s t det hg
        rw [hcalled] at hc
        simp only [if_true, List.mem_append, List.mem_singleton] at hc
        rcases hc with hc | hc
        · subst hc; linarith
        · have := ih (loop_tick s t det).state c hc
          rw [hst] at this
          have h0 := API_CALL_INTERVAL_nonneg
          linarith
      · rw [loop_tick_not_called s t det hg] at hc
        simp only [List.nil_append] at hc
        exact ih s c hc

lemma callTimes_pairwise (ticks : List (ℚ × Bool)) :
    ∀ s : LoopState,
      List.Pairwise (fun a b => API_CALL_INTERVAL ≤ b - a) (callTimes s ticks) := by
  induction ticks with
  | nil => intro s; exact List.Pairwise.nil
  | cons td rest ih =>
      intro s
      obtain ⟨t, det⟩ := td
      simp only [callTimes]
      by_cases hg : API_CALL_INTERVAL ≤ t - s.lastApiCall
      · obtain ⟨hst, hcalled⟩ := loop_tick_called_state s t det hg
        rw [hcalled]
        simp only [if_true, List.singleton_append]
        refine List.Pairwise.cons ?_ (ih _)
        intro c hc
        have := callTimes_lb rest (loop_tick s t det).state c hc
        rw [hst] at this
        linarith
      · rw [loop_tick_not_called s t det hg]
        simp only [List.nil_append]
        exact ih s

lemma increase_volume_ok (aok : Bool) : increase_volume aok = .ok () := by
  cases aok <;> rfl

/-- `detection_tick` never raises, and its result in explicit form
(`increase_volume` swallows every failure of the volume command). -/
lemma detection_tick_eq (s : AppState) (t : ℚ) (det aok : Bool) :
    detection_tick s t det aok = .ok (
      if API_CALL_INTERVAL ≤ t - s.lastApiCall then
        if det then
          if COOLDOWN_PERIOD ≤ t - s.lastTrigger then
            ⟨⟨t, t, s.gesturesDetected + 1, s.volumeChanges + 1⟩, true, true⟩
          else ⟨⟨t, s.lastTrigger, s.gesturesDetected + 1, s.volumeChanges⟩, true, false⟩
        else ⟨⟨t, s.lastTrigger, s.gesturesDetected, s.volumeChanges⟩, true, false⟩
      else ⟨s, false, false⟩) := by
  simp only [detection_tick, increase_volume_ok]
  split_ifs <;> rfl

/-- C2: any two classification calls issued by the loop are at least
`API_CALL_INTERVAL` apart (first conjunct, over any tick sequence with
weakly increasing times); a call is issued at time `t` only if
`t - lastApiCall ≥ API_CALL_INTERVAL`, and `lastApiCall` is set to `t` at
that call — in the script loop (second conjunct) and in the app's
`detection_loop` (third conjunct). -/
theorem c2_api_calls_separated (s : LoopState) (ticks : List (ℚ × Bool))
    (hmono : List.Pairwise (· ≤ ·) (ticks.map Prod.fst)) :
    List.Pairwise (fun a b => API_CALL_INTERVAL ≤ b - a) (callTimes s ticks) ∧
    (∀ (s' : LoopState) (t : ℚ) (det : Bool), (loop_tick s' t det).called = true →
        API_CALL_INTERVAL ≤ t - s'.lastApiCall ∧
        (loop_tick s' t det).state.lastApiCall = t) ∧
    (∀ (s' : AppState) (t : ℚ) (det aok : Bool) (r : AppTickOut),
        detection_tick s' t det aok = .ok r → r.called = true →
        API_CALL_INTERVAL ≤ t - s'.lastApiCall ∧ r.state.lastApiCall = t) := by
  refine ⟨callTimes_pairwise ticks s, ?_, ?_⟩
  · intro s' t det hcalled
    have hg := loop_tick_gate s' t det hcalled
    exact ⟨hg, (loop_tick_called_state s' t det hg).1⟩
  · intro s' t det aok r hok hcalled
    rw [detection_tick_eq] at hok
    have hr := Except.ok.inj hok
    by_cases hg : API_CALL_INTERVAL ≤ t - s'.lastApiCall
    · refine ⟨hg, ?_⟩
      rw [if_pos hg] at hr
      subst hr
      split_ifs <;> rfl
    · exfalso
      rw [if_neg hg] at hr
      subst hr
      cases hcalled

/-- C2 witness: a concrete monotone tick sequence; the separation holds
and the per-tick facts apply at a concrete state and time. -/
theorem c2_api_calls_separated_witness :
    List.Pairwise (fun a b => API_CALL_INTERVAL ≤ b - a)
      (callTimes ⟨0, 0⟩ [((2 : ℚ), true), ((3 : ℚ), true), ((5 : ℚ), false)]) :=
  (c2_api_calls_separated ⟨0, 0⟩ [(2, true), (3, true), (5, false)]
    (by norm_num [List.pairwise_cons])).1

/-! ## C3: minimum spacing between fired volume actions -/

lemma COOLDOWN_PERIOD_nonneg : (0 : ℚ) ≤ COOLDOWN_PERIOD := by
  norm_num [COOLDOWN_PERIOD]

lemma fireTimes_lb (ticks : List (ℚ × Bool × Bool)) :
    ∀ s : AppState, ∀ c ∈ fireTimes s ticks, s.lastTrigger + COOLDOWN_PERIOD ≤ c := by
  induction ticks with
  | nil => intro s c hc; cases hc
  | cons td rest ih =>
      intro s c hc
      obtain ⟨t, det, aok⟩ := td
      rw [fireTimes, detection_tick_eq] at hc
      split_ifs at hc with h1 h2 h3
      · simp at hc
        rcases hc with hc | hc
        · subst hc; linarith
        · have h4 := ih _ c hc
          simp at h4
          have h0 := COOLDOWN_PERIOD_nonneg
          linarith
      · simp at hc
        have h4 := ih _ c hc
        simpa using h4
      · simp at hc
        have h4 := ih _ c hc
        simpa using h4
      · simp at hc
        exact ih _ c hc

lemma fireTimes_pairwise (ticks : List (ℚ × Bool × Bool)) :
    ∀ s : AppState,
      List.Pairwise (fun a b => COOLDOWN_PERIOD ≤ b - a) (fireTimes s ticks) := by
  induction ticks with
  | nil => intro s; exact List.Pairwise.nil
  | cons td rest ih =>
      intro s
      obtain ⟨t, det, aok⟩ := td
      rw [fireTimes, detection_tick_eq]
      split_ifs with h1 h2 h3
      · simp only [if_true, List.singleton_append]
        refine List.Pairwise.cons ?_ (ih _)
        intro c hc
        have h4 := fireTimes_lb rest _ c hc
        simp at h4
        linarith
      · simpa using ih _
      · simpa using ih _
      · simpa using ih _

/-- C3: any two firings of the volume action are at least
`COOLDOWN_PERIOD` apart, over every tick sequence (first conjunct); a
positive detection inside the cooldown window is counted
(`gestures_detected` is incremented) but does not fire and does not
change `lastTrigger` — in the app loop (second conjunct) and, minus the
counter it does not have, in the script loop (third conjunct). -/
theorem c3_cooldown_spacing (s : AppState) (ticks : List (ℚ × Bool × Bool)) :
    List.Pairwise (fun a b => COOLDOWN_PERIOD ≤ b - a) (fireTimes s ticks) ∧
    (∀ (s' : AppState) (t : ℚ) (aok : Bool),
        API_CALL_INTERVAL ≤ t - s'.lastApiCall →
        t - s'.lastTrigger < COOLDOWN_PERIOD →
        detection_tick s' t true aok =
          .ok ⟨⟨t, s'.lastTrigger, s'.gesturesDetected + 1, s'.volumeChanges⟩, true, false⟩) ∧
    (∀ (s' : LoopState) (t : ℚ),
        API_CALL_INTERVAL ≤ t - s'.lastApiCall →
        t - s'.lastTrigger < COOLDOWN_PERIOD →
        loop_tick s' t true = ⟨⟨t, s'.lastTrigger⟩, true, false⟩) := by
  refine ⟨fireTimes_pairwise ticks s, ?_, ?_⟩
  · intro s' t aok h1 h2
    have hn : ¬ COOLDOWN_PERIOD ≤ t - s'.lastTrigger := not_le.mpr h2
    simp [detection_tick_eq, h1, hn]
  · intro s' t h1 h2
    have hn : ¬ COOLDOWN_PERIOD ≤ t - s'.lastTrigger := not_le.mpr h2
    simp [loop_tick, h1, hn]

/-- C3 witness: at a concrete state and tick inside the cooldown window,
the detection is counted, the action is suppressed and `lastTrigger` is
unchanged. -/
theorem c3_cooldown_spacing_witness :
    detection_tick ⟨0, 5/2, 0, 0⟩ 3 true true =
      .ok ⟨⟨3, 5/2, 1, 0⟩, true, false⟩ :=
  (c3_cooldown_spacing ⟨0, 5/2, 0, 0⟩ []).2.1 ⟨0, 5/2, 0, 0⟩ 3 true
    (by norm_num [API_CALL_INTERVAL]) (by norm_num [COOLDOWN_PERIOD])

/-! ## C4: the concrete cooldown scenarios from the zero-reset state -/

/-- C4 counterexample: from the zero-reset session state with
`COOLDOWN_PERIOD = 1`, a positive detection at `t = 0.0` does NOT fire
(the guard `0 - 0 ≥ 1` fails), so for detections at (0.0, 0.5) neither
fires — the claim says exactly the first fires — and for (0.0, 1.1) only
the second fires — the claim says both fire.  In the composed loop no
classification call is even attempted at those tick times (the API gate
`t - 0 ≥ 2` also fails). -/
theorem c4_zero_state_counterexample :
    cooldown_run 0 [0, 1/2] = [false, false] ∧
    cooldown_run 0 [0, 11/10] = [false, true] ∧
    callTimes ⟨0, 0⟩ [(0, true), (1/2, true)] = [] := by
  refine ⟨?_, ?_, ?_⟩ <;>
    norm_num [cooldown_run, cooldown_gate, COOLDOWN_PERIOD, callTimes,
      loop_tick, API_CALL_INTERVAL]

/-- C4 (amended): from the zero-reset state a detection at `t = 0.0`
falls inside the initial cooldown window and is suppressed; the claimed
pattern holds once `t - 0 ≥ COOLDOWN_PERIOD`: positive detections at
t = 1.0 and t = 1.5 fire exactly the first, and at t = 1.0 and t = 2.1
both fire. -/
theorem c4_cooldown_scenarios :
    cooldown_run 0 [1, 3/2] = [true, false] ∧
    cooldown_run 0 [1, 21/10] = [true, true] := by
  constructor <;> norm_num [cooldown_run, cooldown_gate, COOLDOWN_PERIOD]

/-! ## C5: locating the hands collection -/

/-- C5 counterexample: on `{"hands": [], "hand_gestures": [positive]}`
the code skips the present-but-empty `hands` value and keeps probing
(the Python `or` chain tests truthiness, not key presence), returning
True from the `hand_gestures` record, while the claim's algorithm
("first match wins; if the located collection is empty, return
present=false", embodied by `spec_normalize`) yields absent. -/
theorem c5_first_truthy_counterexample :
    detect_thumbs_up (Json.obj [("hands", Json.arr []),
      ("hand_gestures", Json.arr [Json.obj [("gesture", Json.str "thumb_up")]])]) = .ok true ∧
    spec_normalize (Json.obj [("hands", Json.arr []),
      ("hand_gestures", Json.arr [Json.obj [("gesture", Json.str "thumb_up")]])]) = ⟨false, 0⟩ :=
  ⟨rfl, rfl⟩

/-- C5 (amended): the probe takes the first TRUTHY value under keys
`hands`, `hand_gestures`, `result`, in that order — a present but falsy
value such as an empty list is skipped and probing continues (first
conjunct); a located document is dereferenced at its `hands` key with
default `[]` (second conjunct); and whenever the located value is falsy
— no collection found, or the collection empty — the normalizer returns
absent (third conjunct), in particular on `{}` and `{"hands": []}`
(fourth conjunct). -/
theorem c5_locate_hands (fs : List (String × Json)) :
    (dictGet "hands" fs = none →
       locateHands (("hands", Json.arr []) :: fs) = locateHands fs) ∧
    (∀ ifs, firstTruthy fs probeKeys = Json.obj ifs →
       locateHands fs = (dictGet "hands" ifs).getD (Json.arr [])) ∧
    (truthy (locateHands fs) = false → detect_thumbs_up (Json.obj fs) = .ok false) ∧
    (detect_thumbs_up (Json.obj []) = .ok false ∧
     detect_thumbs_up (Json.obj [("hands", Json.arr [])]) = .ok false) := by
  refine ⟨?_, ?_, ?_, rfl, rfl⟩
  · intro hnone
    simp only [dictGet] at hnone
    simp [locateHands, probeKeys, firstTruthy, dictGet, hnone, truthy, List.lookup,
      show (("hand_gestures" : String) == "hands") = false from rfl,
      show (("result" : String) == "hands") = false from rfl]
  · intro ifs h
    simp [locateHands, h]
  · intro h
    by_cases htr : truthy (Json.obj fs) = true
    · simp [detect_thumbs_up, htr, h]
    · simp only [Bool.not_eq_true] at htr
      simp [detect_thumbs_up, htr]

/-- C5 witness: a present-but-empty `hands` entry is skipped in favour of
the next probed key, via the theorem at a concrete field list. -/
theorem c5_locate_hands_witness :
    locateHands [("hands", Json.arr []), ("hand_gestures", Json.arr [Json.obj []])] =
      locateHands [("hand_gestures", Json.arr [Json.obj []])] :=
  (c5_locate_hands [("hand_gestures", Json.arr [Json.obj []])]).1 rfl

/-! ## C6: dict-of-scores descriptors and the >50 threshold -/

/-- C6: for a hand whose descriptor is a dict of scores, the `thumb_up`
score (default 0 when absent) decides the result, positive exactly when
strictly above 50 (first conjunct); an absent score never matches
(second conjunct); the first qualifying hand wins — once a hand matches,
the remaining hands are not examined (third conjunct); and the spec's
document yields present with confidence 75 (fourth and fifth
conjuncts — the confidence via the spec-level signal, the code's
own return value being only the boolean). -/
theorem c6_score_threshold :
    (∀ (gfs : List (String × Json)) (q : ℚ), dictGet "thumb_up" gfs = some (Json.num q) →
        detect_thumbs_up (Json.obj [("hands", Json.arr [Json.obj [("gesture", Json.obj gfs)]])]) =
          .ok (decide (50 < q))) ∧
    (∀ gfs : List (String × Json), dictGet "thumb_up" gfs = none →
        checkHand (Json.obj [("gesture", Json.obj gfs)]) = .ok false) ∧
    (∀ (h : Json) (rest : List Json), checkHand h = .ok true →
        checkHands (h :: rest) = .ok true) ∧
    detect_thumbs_up (Json.obj [("hands", Json.arr [Json.obj [("gesture",
      Json.obj [("thumb_up", Json.num 75)])]])]) = .ok true ∧
    spec_normalize (Json.obj [("hands", Json.arr [Json.obj [("gesture",
      Json.obj [("thumb_up", Json.num 75)])]])]) = ⟨true, 75⟩ := by
  refine ⟨?_, ?_, ?_, rfl, rfl⟩
  · intro gfs q h
    have hne : gfs ≠ [] := by
      intro he; subst he; simp [dictGet, List.lookup] at h
    have htr : truthy (Json.obj gfs) = true := by
      cases gfs with
      | nil => exact absurd rfl hne
      | cons a l => rfl
    have hch : chain3 [("gesture", Json.obj gfs)] = Json.obj gfs := by
      simp [chain3, dictGet, List.lookup, htr]
    have hck : checkHand (Json.obj [("gesture", Json.obj gfs)]) = .ok (decide (50 < q)) := by
      simp [checkHand, hch, h]
    have hrun : checkHands [Json.obj [("gesture", Json.obj gfs)]] = .ok (decide (50 < q)) := by
      cases hq : decide ((50 : ℚ) < q) <;> simp [checkHands, hck, hq]
    simp [detect_thumbs_up, locateHands, firstTruthy, probeKeys, dictGet, List.lookup,
      truthy, iterElems, hrun]
  · intro gfs h
    cases gfs with
    | nil => rfl
    | cons a l =>
        have hch : chain3 [("gesture", Json.obj (a :: l))] = Json.obj (a :: l) := by
          simp [chain3, dictGet, List.lookup, truthy]
        simp [checkHand, hch, h, show decide ((50 : ℚ) < 0) = false from by norm_num]
  · intro h rest hok
    simp [checkHands, hok]

/-- C6 witness: the first conjunct applied at a concrete score dict. -/
theorem c6_score_threshold_witness :
    detect_thumbs_up (Json.obj [("hands", Json.arr [Json.obj [("gesture",
      Json.obj [("thumb_up", Json.num 60)])]])]) = .ok (decide ((50 : ℚ) < 60)) :=
  c6_score_threshold.1 [("thumb_up", Json.num 60)] 60 rfl

/-! ## C7: plain string-label descriptors -/

/-- C7: for a hand whose descriptor is a plain string, the code
lower-cases it, strips underscores and spaces, and matches exactly
`thumbup`/`thumbsup` (first conjunct, for every string); `Thumb_Up`
normalizes to `thumbup` (second), the spec's document yields True
(third), with confidence 100 at the spec signal level (fourth). -/
theorem c7_label_matching :
    (∀ s : String,
        detect_thumbs_up (Json.obj [("hands", Json.arr [Json.obj [("gesture", Json.str s)]])]) =
          .ok (normalizeLabel s == "thumbup" || normalizeLabel s == "thumbsup")) ∧
    normalizeLabel "Thumb_Up" = "thumbup" ∧
    detect_thumbs_up (Json.obj [("hands", Json.arr [Json.obj [("gesture",
      Json.str "Thumb_Up")]])]) = .ok true ∧
    spec_normalize (Json.obj [("hands", Json.arr [Json.obj [("gesture",
      Json.str "Thumb_Up")]])]) = ⟨true, 100⟩ := by
  refine ⟨?_, rfl, rfl, rfl⟩
  intro s
  by_cases hs : s = ""
  · subst hs; rfl
  · have htr : truthy (Json.str s) = true := by simp [truthy, hs]
    have hch : chain3 [("gesture", Json.str s)] = Json.str s := by
      simp [chain3, dictGet, List.lookup, htr]
    have hck : checkHand (Json.obj [("gesture", Json.str s)]) =
        .ok (normalizeLabel s == "thumbup" || normalizeLabel s == "thumbsup") := by
      simp [checkHand, hch]
    cases hb : (normalizeLabel s == "thumbup" || normalizeLabel s == "thumbsup") <;>
      simp [detect_thumbs_up, locateHands, firstTruthy, probeKeys, dictGet, List.lookup,
        truthy, iterElems, checkHands, hck, hb]

/-! ## C10: descriptors that are neither dict nor string are skipped -/

/-- C10: a hand record whose probed descriptor is neither a dict nor a
string (a number, a list, null — including the all-keys-absent case) is
no match and raises nothing (first conjunct); it leaves the evaluation of
the remaining hands untouched (second conjunct); and a hands list none of
whose records match yields False (third conjunct). -/
theorem c10_other_descriptor_skipped (fs : List (String × Json))
    (hobj : ∀ gfs : List (String × Json), chain3 fs ≠ Json.obj gfs)
    (hstr : ∀ s : String, chain3 fs ≠ Json.str s) :
    checkHand (Json.obj fs) = .ok false ∧
    (∀ rest : List Json, checkHands (Json.obj fs :: rest) = checkHands rest) ∧
    (∀ hands : List Json, (∀ h ∈ hands, checkHand h = .ok false) →
        checkHands hands = .ok false) := by
  have hck : checkHand (Json.obj fs) = .ok false := by
    cases hg : chain3 fs with
    | obj gfs => exact absurd hg (hobj gfs)
    | str s => exact absurd hg (hstr s)
    | null => simp [checkHand, hg]
    | bool b => simp [checkHand, hg]
    | num q => simp [checkHand, hg]
    | arr l => simp [checkHand, hg]
  refine ⟨hck, ?_, ?_⟩
  · intro rest; simp [checkHands, hck]
  · intro hands hall
    induction hands with
    | nil => rfl
    | cons h t ih =>
        have h1 := hall h (by simp)
        have h2 := ih (fun x hx => hall x (by simp [hx]))
        simp [checkHands, h1, h2]

/-- C10 witness: a numeric descriptor at a concrete hand is skipped. -/
theorem c10_other_descriptor_skipped_witness :
    checkHand (Json.obj [("gesture", Json.num 5)]) = .ok false :=
  (c10_other_descriptor_skipped [("gesture", Json.num 5)]
    (fun gfs h => by simp [chain3, dictGet, List.lookup, truthy] at h)
    (fun s h => by simp [chain3, dictGet, List.lookup, truthy] at h)).1

/-! ## C8: rate-limit accounting under classification errors -/

/-- C8: once the gate passes at time `t`, a service/transport error still
sets `lastApiCall := t` and leaves `lastTrigger` unchanged (first
conjunct); `lastApiCall` is set to `t` whatever the outcome (second
conjunct); and from the post-error state no classification is attempted
until `API_CALL_INTERVAL` has elapsed from `t` (third conjunct). -/
theorem c8_error_rate_limiting (s : LoopState) (t : ℚ) (o : ClassificationOutcome)
    (herr : (∃ m, o = ClassificationOutcome.serviceError m) ∨
            (∃ m, o = ClassificationOutcome.transportError m))
    (hgate : API_CALL_INTERVAL ≤ t - s.lastApiCall) :
    loop_tick_outcome s t o = .ok ⟨⟨t, s.lastTrigger⟩, true, false⟩ ∧
    (∀ (o' : ClassificationOutcome) (r : TickOut),
        loop_tick_outcome s t o' = .ok r → r.state.lastApiCall = t) ∧
    (∀ (t' : ℚ) (o' : ClassificationOutcome), t' - t < API_CALL_INTERVAL →
        loop_tick_outcome ⟨t, s.lastTrigger⟩ t' o' = .ok ⟨⟨t, s.lastTrigger⟩, false, false⟩) := by
  refine ⟨?_, ?_, ?_⟩
  · have hp : post_result o = Json.null := by
      rcases herr with ⟨m, rfl⟩ | ⟨m, rfl⟩ <;> rfl
    simp [loop_tick_outcome, hgate, hp,
      show detect_thumbs_up Json.null = .ok false from rfl]
  · intro o' r hok
    simp only [loop_tick_outcome, hgate, if_true] at hok
    cases hd : detect_thumbs_up (post_result o') with
    | ok det =>
        rw [hd] at hok
        cases det with
        | true =>
            split_ifs at hok with hcd <;>
              · have := Except.ok.inj hok
                subst this
                rfl
        | false =>
            have := Except.ok.inj hok
            subst this
            rfl
    | error e => rw [hd] at hok; cases hok
  · intro t' o' hlt
    have hn : ¬ API_CALL_INTERVAL ≤ t' - (⟨t, s.lastTrigger⟩ : LoopState).lastApiCall := by
      simp only [not_le]
      exact hlt
    simp [loop_tick_outcome, hn]

/-- C8 witness: a transport error at `t = 5` from the zero state. -/
theorem c8_error_rate_limiting_witness :
    loop_tick_outcome ⟨0, 0⟩ 5 (ClassificationOutcome.transportError "timeout") =
      .ok ⟨⟨5, 0⟩, true, false⟩ :=
  (c8_error_rate_limiting ⟨0, 0⟩ 5 (ClassificationOutcome.transportError "timeout")
    (Or.inr ⟨"timeout", rfl⟩) (by norm_num [API_CALL_INTERVAL])).1

/-! ## C9: behaviour when the volume action fails -/

/-- C9 counterexample: at a firing tick whose volume command FAILS
(`aok = false`), `volume_changes` is still incremented (to 1) and
`last_trigger_time` still advances — the `except: pass` inside
`increase_volume` makes the failure invisible, so the claim that the
counter increases only when the volume change succeeded is false. -/
theorem c9_counter_increments_on_failure :
    detection_tick ⟨0, 0, 0, 0⟩ 5 true false = .ok ⟨⟨5, 5, 1, 1⟩, true, true⟩ := by
  rw [detection_tick_eq]
  norm_num [API_CALL_INTERVAL, COOLDOWN_PERIOD]

/-- C9 (amended): a failing volume command is swallowed inside
`increase_volume` (`except: pass` — nothing is logged in the app) and
never raises (first conjunct); the loop's state update is exactly the
same as on success — counters and timestamps included (second
conjunct); and the loop continues, the tick always producing a result
(third conjunct). -/
theorem c9_action_failure_invisible (s : AppState) (t : ℚ) (det aok : Bool) :
    increase_volume aok = .ok () ∧
    detection_tick s t det aok = detection_tick s t det true ∧
    (∃ r, detection_tick s t det aok = .ok r) := by
  refine ⟨increase_volume_ok aok, ?_, ?_⟩
  · rw [detection_tick_eq, detection_tick_eq]
  · exact ⟨_, detection_tick_eq s t det aok⟩
